import Mathlib

/-!
Shallow embedding of `src/main.rs` (anyhow/thiserror error-handling demo).

Machine integers: all keys and values in the program are `u32`; the only
arithmetic performed is `% 7`, which can never overflow, so `Nat` models
`u32` faithfully on every reachable value.
-/

namespace AnyhowPlayground

/-- `anyhow::Error`: a type-erased error holding a display message plus a
chain of earlier causes, most recent first (`causes.head?` is the failure
wrapped immediately below `msg`). -/
structure OpaqueError where
  msg : String
  causes : List String
  deriving Repr, DecidableEq

/-- `anyhow!(text)`: a fresh opaque error holding a single message and no
underlying cause. -/
def anyhowMsg (text : String) : OpaqueError :=
  { msg := text, causes := [] }

/-- `anyhow::Error::from(e)` for a `std::error::Error` with no `source()`:
the wrapped failure's display text becomes the innermost (and only) link. -/
def fromFailure (display : String) : OpaqueError :=
  { msg := display, causes := [] }

/-- `Error::context(msg)`: pushes a new message in front of the chain. -/
def pushContext (text : String) (e : OpaqueError) : OpaqueError :=
  { msg := text, causes := e.msg :: e.causes }

/-- The `LookupTable` collaborator, as used by the demo:
`HashMap<u32, u32>` restricted to `insert` and `get`.  Modelled as an
association list where `get` takes the first matching key. -/
def LookupTable : Type := List (Nat × Nat)

/-- `HashMap::new()` -/
def tableEmpty : LookupTable := []

/-- `HashMap::insert(k, v)`: the new binding shadows (replaces) any old
binding of `k`. -/
def tableInsert (m : LookupTable) (k v : Nat) : LookupTable :=
  (k, v) :: List.filter (fun p => p.1 != k) m

/-- `HashMap::get(&k)` -/
def tableGet (m : LookupTable) (k : Nat) : Option Nat :=
  match m with
  | [] => none
  | (k', v) :: rest => if k' = k then some v else tableGet rest k

/-- `Option::ok_or_else`: converts an absent value into the error produced
by the (lazily invoked) closure. -/
def okOrElse {α ε : Type} (o : Option α) (f : Unit → ε) : Except ε α :=
  match o with
  | some a => Except.ok a
  | none => Except.error (f ())

/-- `Option::ok_or`: converts an absent value into the given error. -/
def okOr {α ε : Type} (o : Option α) (e : ε) : Except ε α :=
  match o with
  | some a => Except.ok a
  | none => Except.error e

/-- `access_map_1`: opaque-error strategy.  Builds a fresh empty map,
looks up `key` (absence becomes `anyhow!("key lookup failure")` via
`ok_or_else` and `?`), then validates divisibility by 7
(`bail!("not divisible by 7")` on failure). -/
def access_map_1 (key : Nat) : Except OpaqueError Nat :=
  let map : LookupTable := tableEmpty
  match okOrElse (tableGet map key) (fun _ => anyhowMsg "key lookup failure") with
  | Except.error e => Except.error e
  | Except.ok n =>
    if n % 7 ≠ 0 then
      Except.error (anyhowMsg "not divisible by 7")
    else
      Except.ok n

/-- The zero-cost structured error `LookupFailure`: a data-free unit
struct whose `thiserror` display text is `"key lookup failure"`. -/
structure LookupFailure where
  deriving Repr, DecidableEq

/-- `Display` for `LookupFailure` (from `#[error("key lookup failure")]`). -/
def displayLookupFailure (_ : LookupFailure) : String :=
  "key lookup failure"

/-- `access_map_2`: zero-cost strategy.  Builds a fresh empty map, looks
up `key` (absence becomes `LookupFailure` via `ok_or` and `?`), and
returns the value unvalidated. -/
def access_map_2 (key : Nat) : Except LookupFailure Nat :=
  let map : LookupTable := tableEmpty
  match okOr (tableGet map key) LookupFailure.mk with
  | Except.error e => Except.error e
  | Except.ok n => Except.ok n

/-- The enumerated error `IdNumberError` with its two variants. -/
inductive IdNumberError where
  | LookupFailure : IdNumberError
  | InvalidNumber : Nat → IdNumberError
  deriving Repr, DecidableEq

/-- `Display` for `IdNumberError` (from the `#[error(...)]` attributes):
`"id lookup failure"` and `"invalid id number ({0})"`. -/
def displayIdNumberError : IdNumberError → String
  | IdNumberError.LookupFailure => "id lookup failure"
  | IdNumberError.InvalidNumber n => "invalid id number (" ++ toString n ++ ")"

/-- The table built inside `access_map_3`: insert `(41, 76)` then `(42, 77)`
into a fresh map. -/
def map3 : LookupTable :=
  tableInsert (tableInsert tableEmpty 41 76) 42 77

/-- `access_map_3`: enumerated strategy.  Looks up `key` in `map3`
(absence becomes `IdNumberError::LookupFailure` via `ok_or` and `?`);
a present value is valid iff it is a multiple of 7, otherwise
`IdNumberError::InvalidNumber(n)`. -/
def access_map_3 (key : Nat) : Except IdNumberError Nat :=
  match okOr (tableGet map3 key) IdNumberError.LookupFailure with
  | Except.error e => Except.error e
  | Except.ok n =>
    if n % 7 = 0 then
      Except.ok n
    else
      Except.error (IdNumberError.InvalidNumber n)

/-- `anyhow::Context::with_context` on a `Result<T, E: std::error::Error>`
(here the io error is modelled by its display text):

```
match self {
    Ok(ok) => Ok(ok),
    Err(error) => Err(Error::from(error).context(context())),
}
```

The context closure may perform effects (in Rust, any `FnOnce`), so it is
embedded generically over a monad `m`; the closure runs only in the `Err`
arm, exactly as in the source.  Instantiating `m := Id` gives the pure
result; instantiating `m := StateM Nat` with a counting closure observes
how many times the closure was invoked. -/
def withContextM {m : Type → Type} [Monad m] {α : Type}
    (r : Except String α) (context : Unit → m String) :
    m (Except OpaqueError α) :=
  match r with
  | Except.ok a => pure (Except.ok a)
  | Except.error e => do
    let c ← context ()
    pure (Except.error (pushContext c (fromFailure e)))

/-- The pure reading of `with_context` (Rust's actual run, whose closure
only formats a string). -/
def withContext {α : Type} (r : Except String α) (context : Unit → String) :
    Except OpaqueError α :=
  withContextM (m := Id) r context

/-- `format!("failed to open {:?}", filename)` with
`filename = "nonexistent_logfile"`; `{:?}` on a `&str` adds quotes
(the literal contains no characters needing escapes). -/
def openFile2Message : String :=
  "failed to open \"nonexistent_logfile\""

/-- The closure `|| format!("failed to open {:?}", filename)` of
`open_file_2`. -/
def openFile2Builder : Unit → String :=
  fun _ => openFile2Message

/-- `open_file_2`, parametric in the outcome of the external
`File::open("nonexistent_logfile")` call (an io error modelled by its
display text): attaches the lazy context and discards the file handle. -/
def openFile2 (openResult : Except String Unit) : Except OpaqueError Unit :=
  match withContext openResult openFile2Builder with
  | Except.error e => Except.error e
  | Except.ok _ => Except.ok ()

/-- `open_file_2`'s closure instrumented to count its invocations
(`StateM Nat`): each call increments the counter and returns the same
message the real closure builds. -/
def openFile2BuilderCounted : Unit → StateM Nat String :=
  fun u => fun n => (openFile2Builder u, n + 1)

/-- Right-align a string in width 5 (Rust's `"{: >5}"`). -/
def rightAlign5 (s : String) : String :=
  String.mk (List.replicate (5 - s.length) ' ') ++ s

/-- The cause section of anyhow's report: a single cause is rendered
indented by four spaces; multiple causes are numbered, each number
right-aligned in width 5 followed by `": "`. -/
def causeLines (cs : List String) : List String :=
  if cs.length ≤ 1 then
    List.map (fun c => "    " ++ c) cs
  else
    List.map (fun p => rightAlign5 (toString p.1) ++ ": " ++ p.2) cs.enum

/-- anyhow's report format (what `Error: {:?}` prints), as the list of
lines of the output: the top message on the first line; when causes
exist, a blank line, the `Caused by:` heading, and one line per earlier
link in chain order (most recent first). -/
def renderLines (e : OpaqueError) : List String :=
  match e.causes with
  | [] => [e.msg]
  | cs => e.msg :: "" :: "Caused by:" :: causeLines cs

/-- The rendered report as a single string. -/
def render (e : OpaqueError) : String :=
  String.intercalate "\n" (renderLines e)

/-- `impl From<E: std::error::Error> for anyhow::Error` as used by `?` in
`main`: `IdNumberError` has no `source()`, so the chain is its display
text alone. -/
def fromIdNumberError (e : IdNumberError) : OpaqueError :=
  fromFailure (displayIdNumberError e)

/-- The body of `main` after the demo call, parametric in that call's
result: on failure, `?` converts the error into `anyhow::Error` and
nothing is printed by `main` itself; on success, `"Success!"` is printed.
Returns (result handed to the runtime, lines printed by `main`). -/
def mainWith (r : Except IdNumberError Nat) :
    Except OpaqueError Unit × List String :=
  match r with
  | Except.error e => (Except.error (fromIdNumberError e), [])
  | Except.ok _ => (Except.ok (), ["Success!"])

/-- `main` with the currently selected demo call, `access_map_3(41)`. -/
def mainRun : Except OpaqueError Unit × List String :=
  mainWith (access_map_3 41)

/-- The process exit status produced by the `Termination` impl for
`anyhow::Result<()>`: 0 on `Ok`, 1 on `Err`. -/
def exitCode (r : Except OpaqueError Unit) : Nat :=
  match r with
  | Except.ok _ => 0
  | Except.error _ => 1

/-- Modelled from the spec: an *invalid-value* failure of the zero-cost
strategy would be a failure distinct from the absence failure
(`LookupFailure`, displayed "key lookup failure") — the spec requires
each strategy to distinguish the invalid-value outcome from the
absent-key outcome. -/
def isInvalidValueFailure2 (r : Except LookupFailure Nat) : Prop :=
  ∃ e, r = Except.error e ∧ e ≠ LookupFailure.mk

/-- Modelled from the spec: "for the zero-cost strategy (access_map_2)
there exists some input that produces an invalid-value failure". -/
def zeroCostProducesInvalid : Prop :=
  ∃ key, isInvalidValueFailure2 (access_map_2 key)

/-- C1: for the enumerated-error strategy over the table {41 ↦ 76, 42 ↦ 77},
looking up 42 returns success with 77, looking up 41 returns
InvalidNumber carrying exactly 76, and looking up 99 (absent) returns
LookupFailure. -/
theorem C1_enumerated_concrete :
    access_map_3 42 = Except.ok 77 ∧
    access_map_3 41 = Except.error (IdNumberError.InvalidNumber 76) ∧
    access_map_3 99 = Except.error IdNumberError.LookupFailure :=
  ⟨rfl, rfl, rfl⟩

/-- C2 (counterexample): it is false that some input makes access_map_2
produce an invalid-value failure (a failure distinct from the absence
failure) — its error type has a single value. -/
theorem C2_counterexample : ¬ zeroCostProducesInvalid := by
  rintro ⟨key, e, _, hNe⟩
  exact hNe rfl

/-- C2 (amended): the enumerated strategy exhibits all three outcomes
(success at 42, absence at 99, invalid-value at 41), and the opaque
representation distinguishes its invalid-value message from its absence
message; but the zero-cost strategy cannot produce an invalid-value
failure: its error type has exactly one value (the absence failure) and
access_map_2 performs no validation, returning that failure for every key. -/
theorem C2_amended_outcomes :
    (access_map_3 42 = Except.ok 77 ∧
     access_map_3 99 = Except.error IdNumberError.LookupFailure ∧
     access_map_3 41 = Except.error (IdNumberError.InvalidNumber 76)) ∧
    anyhowMsg "not divisible by 7" ≠ anyhowMsg "key lookup failure" ∧
    (∀ e : LookupFailure, e = LookupFailure.mk) ∧
    (∀ key, access_map_2 key = Except.error LookupFailure.mk) :=
  ⟨⟨rfl, rfl, rfl⟩, by decide, fun _ => rfl, fun _ => rfl⟩

/-- C3: for every key absent from its lookup table, each strategy returns
its absence failure and never a success value (for access_map_1 and
access_map_2 every key is absent; for access_map_3 the absent keys are
those other than 41 and 42). -/
theorem C3_absent_key_failures :
    (∀ key, access_map_1 key = Except.error (anyhowMsg "key lookup failure")) ∧
    (∀ key, access_map_2 key = Except.error LookupFailure.mk) ∧
    (∀ key, key ≠ 41 → key ≠ 42 →
      access_map_3 key = Except.error IdNumberError.LookupFailure) := by
  refine ⟨fun _ => rfl, fun _ => rfl, fun key h41 h42 => ?_⟩
  have g : tableGet map3 key = none := by
    show (if 42 = key then some 77 else if 41 = key then some 76 else none) = none
    rw [if_neg (fun h => h42 h.symm), if_neg (fun h => h41 h.symm)]
  unfold access_map_3
  rw [g]
  rfl

/-- Witness for C3 at the concrete absent key 99. -/
theorem C3_witness :
    (99 : Nat) ≠ 41 ∧ (99 : Nat) ≠ 42 ∧
    access_map_3 99 = Except.error IdNumberError.LookupFailure :=
  ⟨by decide, by decide, C3_absent_key_failures.2.2 99 (by decide) (by decide)⟩

/-- C4: for every key present with value v where v % 7 ≠ 0, the
enumerated strategy fails with InvalidNumber carrying exactly v, and the
opaque strategy fails with the "not divisible by 7" message (vacuous for
access_map_1, whose table is empty). -/
theorem C4_invalid_value_failures :
    (∀ key v, tableGet map3 key = some v → v % 7 ≠ 0 →
      access_map_3 key = Except.error (IdNumberError.InvalidNumber v)) ∧
    (∀ key v, tableGet tableEmpty key = some v → v % 7 ≠ 0 →
      access_map_1 key = Except.error (anyhowMsg "not divisible by 7")) := by
  constructor
  · intro key v h hv
    unfold access_map_3
    rw [h]
    simp [okOr, hv]
  · intro key v h _
    exact absurd h (by simp [tableEmpty, tableGet])

/-- Witness for C4 at key 41, whose value 76 is not a multiple of 7. -/
theorem C4_witness :
    tableGet map3 41 = some 76 ∧ (76 : Nat) % 7 ≠ 0 ∧
    access_map_3 41 = Except.error (IdNumberError.InvalidNumber 76) :=
  ⟨rfl, by decide, C4_invalid_value_failures.1 41 76 rfl (by decide)⟩

/-- C5: for every key present with value v where v % 7 = 0, all three
strategies return success with exactly v (vacuous for access_map_1 and
access_map_2, whose tables are empty). -/
theorem C5_valid_value_success :
    (∀ key v, tableGet map3 key = some v → v % 7 = 0 →
      access_map_3 key = Except.ok v) ∧
    (∀ key v, tableGet tableEmpty key = some v → v % 7 = 0 →
      access_map_1 key = Except.ok v) ∧
    (∀ key v, tableGet tableEmpty key = some v → v % 7 = 0 →
      access_map_2 key = Except.ok v) := by
  refine ⟨fun key v h hv => ?_, fun key v h _ => ?_, fun key v h _ => ?_⟩
  · unfold access_map_3
    rw [h]
    simp [okOr, hv]
  · exact absurd h (by simp [tableEmpty, tableGet])
  · exact absurd h (by simp [tableEmpty, tableGet])

/-- Witness for C5 at key 42, whose value 77 is a multiple of 7. -/
theorem C5_witness :
    tableGet map3 42 = some 77 ∧ (77 : Nat) % 7 = 0 ∧
    access_map_3 42 = Except.ok 77 :=
  ⟨rfl, by decide, C5_valid_value_success.1 42 77 rfl (by decide)⟩

/-- C6: the context-message closure of open_file_2 is evaluated iff the
underlying open fails: instrumented with an invocation counter, the
counter stays 0 on a successful underlying call and reaches exactly 1 on
a failing one, and the instrumented run returns the same result as the
pure with_context. -/
theorem C6_lazy_context :
    (∀ u : Unit,
      (withContextM (m := StateM Nat) (Except.ok u) openFile2BuilderCounted).run 0
        = (Except.ok u, 0)) ∧
    (∀ ioMsg : String,
      (withContextM (m := StateM Nat) (Except.error (α := Unit) ioMsg)
          openFile2BuilderCounted).run 0
        = (Except.error (pushContext openFile2Message (fromFailure ioMsg)), 1)) ∧
    (∀ r : Except String Unit,
      ((withContextM (m := StateM Nat) r openFile2BuilderCounted).run 0).1
        = withContext r openFile2Builder) :=
  ⟨fun _ => rfl, fun _ => rfl, fun r => match r with
    | Except.ok _ => rfl
    | Except.error _ => rfl⟩

/-- C7: rendering the error of open_file_2 (a context message over an
underlying failure) puts the outer message on the first line, then the
"Caused by:" heading, then the underlying message; with a longer chain
the earlier links appear most-recent-first (numbered), so no layer's
message is lost. -/
theorem C7_render_chain :
    (∀ ioMsg : String, openFile2 (Except.error ioMsg)
        = Except.error { msg := openFile2Message, causes := [ioMsg] }) ∧
    (∀ ioMsg : String,
      renderLines { msg := openFile2Message, causes := [ioMsg] }
        = [openFile2Message, "", "Caused by:", "    " ++ ioMsg]) ∧
    (∀ top c1 c2 : String,
      renderLines { msg := top, causes := [c1, c2] }
        = [top, "", "Caused by:", "    0: " ++ c1, "    1: " ++ c2]) := by
  refine ⟨fun _ => rfl, fun _ => rfl, fun top c1 c2 => ?_⟩
  simp [renderLines, causeLines, rightAlign5, List.enum, List.enumFrom]
  refine ⟨?_, ?_⟩
  · show "    " ++ "0" ++ ": " ++ c1 = "    0: " ++ c1
    rw [String.append_assoc, String.append_assoc]
    rfl
  · show "    " ++ "1" ++ ": " ++ c2 = "    1: " ++ c2
    rw [String.append_assoc, String.append_assoc]
    rfl

/-- C8: at the top-level boundary, a failing demo call yields exit code 1
and no "Success!" line, a successful one prints exactly "Success!" with
exit code 0; with the selected call access_map_3(41), main reports the
InvalidNumber(76) failure and prints nothing. -/
theorem C8_main_boundary :
    (∀ e : IdNumberError,
      mainWith (Except.error e) = (Except.error (fromIdNumberError e), []) ∧
      exitCode (mainWith (Except.error e)).1 = 1) ∧
    (∀ v : Nat,
      mainWith (Except.ok v) = (Except.ok (), ["Success!"]) ∧
      exitCode (mainWith (Except.ok v)).1 = 0) ∧
    mainRun = (Except.error { msg := "invalid id number (76)", causes := [] }, []) :=
  ⟨fun _ => ⟨rfl, rfl⟩, fun _ => ⟨rfl, rfl⟩, rfl⟩

/-- C9: rendering is deterministic and idempotent — displaying the same
constructed error twice gives character-for-character identical text for
LookupFailure, every IdNumberError variant and every opaque container —
and each variant's display text is the fixed string of the source. -/
theorem C9_render_deterministic :
    (∀ l : LookupFailure, displayLookupFailure l = displayLookupFailure l) ∧
    (∀ e : IdNumberError, displayIdNumberError e = displayIdNumberError e) ∧
    (∀ o : OpaqueError, render o = render o) ∧
    displayLookupFailure LookupFailure.mk = "key lookup failure" ∧
    displayIdNumberError IdNumberError.LookupFailure = "id lookup failure" ∧
    (∀ n, displayIdNumberError (IdNumberError.InvalidNumber n)
        = "invalid id number (" ++ toString n ++ ")") :=
  ⟨fun _ => rfl, fun _ => rfl, fun _ => rfl, rfl, rfl, fun _ => rfl⟩

/-- C10: access_map_1 and access_map_2 build a fresh empty table on every
call, so for every key they return their lookup failures, never succeed,
and access_map_1's "not divisible by 7" branch is unreachable. -/
theorem C10_empty_tables_never_succeed :
    (∀ key, access_map_1 key = Except.error (anyhowMsg "key lookup failure")) ∧
    (∀ key, access_map_2 key = Except.error LookupFailure.mk) ∧
    (∀ key, access_map_1 key ≠ Except.error (anyhowMsg "not divisible by 7")) ∧
    (∀ key v, access_map_1 key ≠ Except.ok v) ∧
    (∀ key v, access_map_2 key ≠ Except.ok v) := by
  have h1 : ∀ key, access_map_1 key = Except.error (anyhowMsg "key lookup failure") :=
    fun _ => rfl
  have h2 : ∀ key, access_map_2 key = Except.error LookupFailure.mk :=
    fun _ => rfl
  refine ⟨h1, h2, fun key h => ?_, fun key v h => ?_, fun key v h => ?_⟩
  · rw [h1 key] at h
    injection h with h'
    exact absurd h' (by decide)
  · rw [h1 key] at h
    exact Except.noConfusion h
  · rw [h2 key] at h
    exact Except.noConfusion h

end AnyhowPlayground
